import Mathlib

/-!
# koltbot: `test-ollama-final.mjs`

A shallow embedding of the diagnostic script `testOllamaIntegration`.

The script is one asynchronous function.  Its external collaborators
(`mkdtempSync`, `ensureMoltbotModelsJson`, `discoverAuthStorage`,
`setRuntimeApiKey`, `discoverModels`, `getAll`, `streamSimple`) are not part of
the repository; one run of the script is determined by what each of them does
when it is called, which is recorded in `Env`.  The run is modelled as a pure
function from `Env` to the ordered list of observable effects (`Event`) together
with the way control left the function (`Finish`).

Modelling conventions
* JavaScript strings are Lean `String`s; `s.length` of JavaScript counts UTF-16
  code units and is modelled by `jsLength`.
* `chunkCount` is a `Nat` (a JavaScript number is exact for every count that a
  finite run can reach below `2^53`).
* A chunk sequence is finite: a list of chunks followed either by normal
  completion or by a raised value.
* Values that can be raised are arbitrary JavaScript values; only the two
  properties the script reads (`message`, `stack`) are kept for objects, and
  they range over primitive values.
* `process.stdout.write(chunk.delta)` of line 62 sits inside the `try` and may
  itself raise.  What it does is a parameter of the run
  (`testOllamaIntegrationWith`); `testOllamaIntegration` is the run on a
  standard output that accepts every write.
-/

namespace Koltbot

/-! ## Data model -/

/-- Primitive JavaScript values: arguments of `console.log` / `console.error`
and values of the properties read from a raised value. -/
inductive Val where
  | undefined
  | null
  | bool (b : Bool)
  | num (n : Int)
  | str (s : String)
  deriving DecidableEq, Repr

/-- JavaScript truthiness, as tested by `if (error.stack)`. -/
def Val.truthy : Val → Bool
  | .undefined => false
  | .null => false
  | .bool b => b
  | .num n => n != 0
  | .str s => s != ""

/-- A value raised by `throw` (or a rejected promise): a primitive, or an object
with its `message` and `stack` properties (`undefined` when the object has no
such property). -/
inductive Thrown where
  | prim (v : Val)
  | obj (message : Val) (stack : Val)
  deriving DecidableEq, Repr

/-- The property reads `error.message` and `error.stack` of the handler.
`none`: the raised value is `null` or `undefined`, and reading a property of it
raises a `TypeError`.  Other primitives have neither property. -/
def Thrown.props : Thrown → Option (Val × Val)
  | .prim .undefined => none
  | .prim .null => none
  | .prim _ => some (.undefined, .undefined)
  | .obj message stack => some (message, stack)

/-- A model of the registry (`m.provider`, `m.id`, `m.baseUrl`). -/
structure Model where
  provider : String
  id : String
  baseUrl : String
  deriving DecidableEq, Repr

/-- One conversation message. -/
structure Message where
  role : String
  content : String
  deriving DecidableEq, Repr

/-- One chunk of the stream (`chunk.type`, `chunk.delta`). -/
structure Chunk where
  type : String
  delta : String
  deriving DecidableEq, Repr

/-- The finite chunk sequence produced by `streamSimple(model, { messages })`:
the chunks it yields, then normal completion (`none`) or a raised value. -/
structure ChunkStream where
  chunks : List Chunk
  ending : Option Thrown
  deriving DecidableEq, Repr

/-- Observable effects of a run, in program order. -/
inductive Event where
  | log (args : List Val)
  | error (args : List Val)
  | stdoutWrite (s : String)
  | streamSimple (model : Model) (messages : List Message)
  deriving DecidableEq, Repr

/-- What the external collaborators do in one run. -/
structure Env where
  mkdtempSync : Except Thrown String
  ensureMoltbotModelsJson : Except Thrown Unit
  discoverAuthStorage : Except Thrown Unit
  setRuntimeApiKey : Except Thrown Unit
  discoverModels : Except Thrown Unit
  getAll : Except Thrown (List Model)
  streamSimple : Model → List Message → ChunkStream

/-- How control leaves `testOllamaIntegration`. -/
inductive Finish where
  /-- line 9 raised outside the `try`: the returned promise rejects -/
  | escaped (e : Thrown)
  /-- line 32: `return` after "No Ollama models found" -/
  | noModels
  /-- lines 68-71 were executed with these values of the two variables -/
  | success (responseText : String) (chunkCount : Nat)
  /-- the `catch` block (lines 74-79) ran to its end for this raised value -/
  | failed (e : Thrown)
  /-- the `catch` block was entered and `error.message` raised a `TypeError` -/
  | handlerThrew (e : Thrown)
  deriving DecidableEq, Repr

/-- How control leaves the `try` block. -/
inductive TryExit where
  | returned
  | completed (responseText : String) (chunkCount : Nat)
  | threw (e : Thrown)
  deriving DecidableEq, Repr

/-- The result of a run: effects in order, and how control left. -/
structure Run where
  events : List Event
  finish : Finish
  deriving DecidableEq, Repr

/-- The two variables of the streaming loop (lines 57-58). -/
structure Acc where
  responseText : String
  chunkCount : Nat
  deriving DecidableEq, Repr

/-- The state in which control leaves the loop, or one pass of its body: the
two variables, the effects so far, and the value raised inside it, if any. -/
structure LoopResult where
  acc : Acc
  events : List Event
  raised : Option Thrown
  deriving DecidableEq, Repr

/-! ## The program -/

/-- JavaScript `s.length`: the number of UTF-16 code units. -/
def jsLength (s : String) : Nat :=
  (s.data.map (fun c => if c.val < 0x10000 then 1 else 2)).sum

/-- Line 28: `allModels.filter(m => m.provider === "ollama")`. -/
def ollamaModels (allModels : List Model) : List Model :=
  allModels.filter (fun m => m.provider == "ollama")

/-- Lines 48-50. -/
def messages : List Message :=
  [{ role := "user", content := "你好！请用一句话介绍你自己。" }]

/-- Line 62, `process.stdout.write(chunk.delta)`, on a standard output that
accepts the write. -/
def stdoutWrite (delta : String) : Except Thrown (List Event) :=
  .ok [Event.stdoutWrite delta]

/-- Lines 61-65, the body of the loop for one chunk; `write` is what line 62
does with the delta: the effects of an accepted write, or the value it raises,
in which case lines 63-64 are not executed. -/
def loopBody (write : String → Except Thrown (List Event)) (acc : Acc) (chunk : Chunk) :
    LoopResult :=
  if chunk.type = "text_delta" then
    match write chunk.delta with
    | .error e => { acc := acc, events := [], raised := some e }
    | .ok evs =>
      { acc := { responseText := acc.responseText ++ chunk.delta,
                 chunkCount := acc.chunkCount + 1 },
        events := evs, raised := none }
  else
    { acc := acc, events := [], raised := none }

/-- Lines 60-66 on the chunks that arrive: the variables and the effects when
control leaves the loop, after the last chunk or at the first pass of the body
that raises. -/
def forAwait (write : String → Except Thrown (List Event)) : List Chunk → Acc → LoopResult
  | [], acc => { acc := acc, events := [], raised := none }
  | chunk :: rest, acc =>
    match (loopBody write acc chunk).raised with
    | some e =>
      { acc := (loopBody write acc chunk).acc, events := (loopBody write acc chunk).events,
        raised := some e }
    | none =>
      { acc := (forAwait write rest (loopBody write acc chunk).acc).acc,
        events := (loopBody write acc chunk).events ++
          (forAwait write rest (loopBody write acc chunk).acc).events,
        raised := (forAwait write rest (loopBody write acc chunk).acc).raised }

/-- Lines 57-58: `let responseText = ""; let chunkCount = 0;`. -/
def initialAcc : Acc :=
  { responseText := "", chunkCount := 0 }

/-- Lines 35-39: the number of Ollama models, one line per model, an empty line. -/
def announceModels (ms : List Model) : List Event :=
  [Event.log [.str "✅ Ollama models found:", .num ms.length]] ++
    ms.map (fun m => Event.log [.str ("   - " ++ m.provider ++ "/" ++ m.id)]) ++
    [Event.log []]

/-- Lines 42-55 and the call of `streamSimple` in line 60. -/
def announceRequest (model : Model) : List Event :=
  [ .log [.str "Step 4: Sending test request to Ollama..."],
    .log [.str "   Using model:", .str (model.provider ++ "/" ++ model.id)],
    .log [.str "   Base URL:", .str model.baseUrl],
    .log [],
    .log [.str "💬 Request:"],
    .log [.str "   User: 你好！请用一句话介绍你自己。\n"],
    .log [.str "💬 Response:"],
    .stdoutWrite "   Assistant: ",
    .streamSimple model messages ]

/-- Lines 68-71: the summary printed after the loop. -/
def reportSuccess (acc : Acc) : List Event :=
  [ .log [.str "\n"],
    .log [.str "✅ SUCCESS: Ollama integration fully working!"],
    .log [.str "   Response length:", .num (jsLength acc.responseText), .str "characters"],
    .log [.str "   Chunks received:", .num acc.chunkCount] ]

/-- Lines 41-71, reached with the selected model `model = ollamaModels[0]`. -/
def request (write : String → Except Thrown (List Event)) (env : Env) (model : Model) :
    List Event × TryExit :=
  let stream := env.streamSimple model messages
  let loop := forAwait write stream.chunks initialAcc
  match loop.raised with
  | some e => (announceRequest model ++ loop.events, .threw e)
  | none =>
  match stream.ending with
  | some e => (announceRequest model ++ loop.events, .threw e)
  | none =>
    (announceRequest model ++ loop.events ++ reportSuccess loop.acc,
      .completed loop.acc.responseText loop.acc.chunkCount)

/-- Lines 13-71, the `try` block. -/
def tryBlock (write : String → Except Thrown (List Event)) (env : Env) :
    List Event × TryExit :=
  let ev1 : List Event := [.log [.str "Step 1: Generating models.json..."]]
  match env.ensureMoltbotModelsJson with
  | .error e => (ev1, .threw e)
  | .ok _ =>
  let ev2 : List Event := ev1 ++
    [.log [.str "✅ models.json generated\n"], .log [.str "Step 2: Setting up authStorage..."]]
  match env.discoverAuthStorage with
  | .error e => (ev2, .threw e)
  | .ok _ =>
  match env.setRuntimeApiKey with
  | .error e => (ev2, .threw e)
  | .ok _ =>
  let ev3 : List Event := ev2 ++
    [.log [.str "✅ AuthStorage configured\n"], .log [.str "Step 3: Discovering models..."]]
  match env.discoverModels with
  | .error e => (ev3, .threw e)
  | .ok _ =>
  match env.getAll with
  | .error e => (ev3, .threw e)
  | .ok allModels =>
  match ollamaModels allModels with
  | [] => (ev3 ++ [.log [.str "❌ No Ollama models found"]], .returned)
  | model :: others =>
    (ev3 ++ announceModels (model :: others) ++ (request write env model).1,
      (request write env model).2)

/-- Lines 74-79, the `catch` block. -/
def catchBlock (error : Thrown) : List Event × Finish :=
  let banner : List Event := [.log [.str "\n❌ FAILED"]]
  match error.props with
  | none => (banner, .handlerThrew error)
  | some (message, stack) =>
    if stack.truthy then
      (banner ++ [.error [.str "Error:", message], .error [.str "\nStack trace:"], .error [stack]],
        .failed error)
    else
      (banner ++ [.error [.str "Error:", message]], .failed error)

/-- Lines 8-81, with what line 62 does as a parameter. -/
def testOllamaIntegrationWith (write : String → Except Thrown (List Event)) (env : Env) : Run :=
  match env.mkdtempSync with
  | .error e => { events := [], finish := .escaped e }
  | .ok _ =>
    let start : List Event := [.log [.str "🧪 Testing Ollama integration (with patch)...\n"]]
    match tryBlock write env with
    | (evs, .returned) => { events := start ++ evs, finish := .noModels }
    | (evs, .completed responseText chunkCount) =>
      { events := start ++ evs, finish := .success responseText chunkCount }
    | (evs, .threw e) =>
      { events := start ++ evs ++ (catchBlock e).1, finish := (catchBlock e).2 }

/-- Lines 8-81: `testOllamaIntegration`, on a standard output that accepts
every write of line 62. -/
def testOllamaIntegration (env : Env) : Run :=
  testOllamaIntegrationWith stdoutWrite env

/-! ## Auxiliary definitions used in the statements -/

/-- The deltas of the `text_delta` chunks of a chunk list, in arrival order. -/
def textDeltas (chunks : List Chunk) : List String :=
  (chunks.filter (fun c => c.type = "text_delta")).map (fun c => c.delta)

/-- The steps before the request succeed in this run and `getAll()` returns
`allModels`. -/
def Env.discovers (env : Env) (allModels : List Model) : Prop :=
  (∃ dir, env.mkdtempSync = .ok dir) ∧ env.ensureMoltbotModelsJson = .ok () ∧
    env.discoverAuthStorage = .ok () ∧ env.setRuntimeApiKey = .ok () ∧
    env.discoverModels = .ok () ∧ env.getAll = .ok allModels

/-- A step inside the `try` block raises `e` in this run: the first step that
does not succeed is `ensureMoltbotModelsJson` (line 15), `discoverAuthStorage`
(line 20), `setRuntimeApiKey` (line 21), `discoverModels` (line 26), `getAll`
(line 27) or, with an Ollama model selected, the chunk sequence of `streamSimple`
(line 60), and it raises `e`. -/
def Env.raisesInTry (env : Env) (e : Thrown) : Prop :=
  env.ensureMoltbotModelsJson = .error e ∨
  (env.ensureMoltbotModelsJson = .ok () ∧ env.discoverAuthStorage = .error e) ∨
  (env.ensureMoltbotModelsJson = .ok () ∧ env.discoverAuthStorage = .ok () ∧
    env.setRuntimeApiKey = .error e) ∨
  (env.ensureMoltbotModelsJson = .ok () ∧ env.discoverAuthStorage = .ok () ∧
    env.setRuntimeApiKey = .ok () ∧ env.discoverModels = .error e) ∨
  (env.ensureMoltbotModelsJson = .ok () ∧ env.discoverAuthStorage = .ok () ∧
    env.setRuntimeApiKey = .ok () ∧ env.discoverModels = .ok () ∧ env.getAll = .error e) ∨
  (∃ allModels model others,
    env.ensureMoltbotModelsJson = .ok () ∧ env.discoverAuthStorage = .ok () ∧
    env.setRuntimeApiKey = .ok () ∧ env.discoverModels = .ok () ∧
    env.getAll = .ok allModels ∧ ollamaModels allModels = model :: others ∧
    (env.streamSimple model messages).ending = some e)

/-- The lines printed by lines 10-25 when every step up to discovery succeeds. -/
def discoveryLog : List Event :=
  [ .log [.str "🧪 Testing Ollama integration (with patch)...\n"],
    .log [.str "Step 1: Generating models.json..."],
    .log [.str "✅ models.json generated\n"],
    .log [.str "Step 2: Setting up authStorage..."],
    .log [.str "✅ AuthStorage configured\n"],
    .log [.str "Step 3: Discovering models..."] ]

/-- An environment in which every step up to discovery succeeds, `getAll()`
returns `allModels` and `streamSimple` produces `stream`. -/
def sampleEnv (allModels : List Model) (stream : ChunkStream) : Env :=
  { mkdtempSync := .ok "/tmp/koltbot-test-Ab12Cd"
    ensureMoltbotModelsJson := .ok ()
    discoverAuthStorage := .ok ()
    setRuntimeApiKey := .ok ()
    discoverModels := .ok ()
    getAll := .ok allModels
    streamSimple := fun _ _ => stream }

/-- A registry snapshot with one model of another provider and two Ollama models. -/
def sampleModels : List Model :=
  [ { provider := "openai", id := "gpt-4o", baseUrl := "https://api.openai.com/v1" },
    { provider := "ollama", id := "llama3", baseUrl := "http://127.0.0.1:11434/v1" },
    { provider := "ollama", id := "qwen2", baseUrl := "http://127.0.0.1:11434/v1" } ]

/-- The models passed to `streamSimple`, in call order. -/
def streamCalls : List Event → List Model
  | [] => []
  | .streamSimple model _ :: evs => model :: streamCalls evs
  | _ :: evs => streamCalls evs

/-- The strings passed to `process.stdout.write`, in write order. -/
def written : List Event → List String
  | [] => []
  | .stdoutWrite s :: evs => s :: written evs
  | _ :: evs => written evs

/-! ## Lemmas on string concatenation -/

theorem foldl_append_eq (l : List String) (a : String) :
    l.foldl (fun r s => r ++ s) a = a ++ l.foldl (fun r s => r ++ s) "" := by
  induction l generalizing a with
  | nil => simp
  | cons x xs ih =>
    simp only [List.foldl_cons]
    rw [ih (a ++ x), ih ("" ++ x)]
    simp [String.append_assoc]

theorem join_nil : String.join [] = "" := rfl

theorem join_cons (x : String) (l : List String) :
    String.join (x :: l) = x ++ String.join l := by
  unfold String.join
  simp only [List.foldl_cons]
  rw [foldl_append_eq]
  simp

theorem join_append (l₁ l₂ : List String) :
    String.join (l₁ ++ l₂) = String.join l₁ ++ String.join l₂ := by
  induction l₁ with
  | nil => simp [join_nil]
  | cons x xs ih => simp [join_cons, ih, String.append_assoc]

/-! ## Lemmas on the streaming loop -/

theorem textDeltas_nil : textDeltas [] = [] := rfl

theorem textDeltas_cons (c : Chunk) (cs : List Chunk) :
    textDeltas (c :: cs) =
      if c.type = "text_delta" then c.delta :: textDeltas cs else textDeltas cs := by
  unfold textDeltas
  by_cases h : c.type = "text_delta" <;> simp [List.filter_cons, h]

theorem textDeltas_append (l₁ l₂ : List Chunk) :
    textDeltas (l₁ ++ l₂) = textDeltas l₁ ++ textDeltas l₂ := by
  simp [textDeltas]

theorem textDeltas_length_le (cs : List Chunk) : (textDeltas cs).length ≤ cs.length := by
  simp [textDeltas, List.length_filter_le]

/-- When every write of a delta of the sequence is accepted, the loop consumes
the whole sequence. -/
theorem forAwait_accepted (write : String → Except Thrown (List Event)) (chunks : List Chunk)
    (acc : Acc) (hw : ∀ d ∈ textDeltas chunks, ∃ evs, write d = .ok evs) :
    (forAwait write chunks acc).acc =
        { responseText := acc.responseText ++ String.join (textDeltas chunks),
          chunkCount := acc.chunkCount + (textDeltas chunks).length } ∧
      (forAwait write chunks acc).raised = none := by
  induction chunks generalizing acc with
  | nil => simp [forAwait, textDeltas_nil, join_nil]
  | cons c cs ih =>
    by_cases h : c.type = "text_delta"
    · obtain ⟨evs, hev⟩ := hw c.delta (by simp [textDeltas_cons, h])
      have hrest : ∀ d ∈ textDeltas cs, ∃ evs, write d = .ok evs := by
        intro d hd
        exact hw d (by simp [textDeltas_cons, h, hd])
      have := ih { responseText := acc.responseText ++ c.delta,
                   chunkCount := acc.chunkCount + 1 } hrest
      simp [forAwait, loopBody, h, hev, this, textDeltas_cons, join_cons, String.append_assoc]
      omega
    · have hrest : ∀ d ∈ textDeltas cs, ∃ evs, write d = .ok evs := by
        intro d hd
        exact hw d (by simp [textDeltas_cons, h, hd])
      have := ih acc hrest
      simp [forAwait, loopBody, h, this, textDeltas_cons]

theorem stdoutWrite_accepted (d : String) : ∃ evs, stdoutWrite d = .ok evs :=
  ⟨_, rfl⟩

theorem forAwait_acc (chunks : List Chunk) (acc : Acc) :
    (forAwait stdoutWrite chunks acc).acc =
      { responseText := acc.responseText ++ String.join (textDeltas chunks),
        chunkCount := acc.chunkCount + (textDeltas chunks).length } :=
  (forAwait_accepted stdoutWrite chunks acc (fun d _ => stdoutWrite_accepted d)).1

theorem forAwait_raised (chunks : List Chunk) (acc : Acc) :
    (forAwait stdoutWrite chunks acc).raised = none :=
  (forAwait_accepted stdoutWrite chunks acc (fun d _ => stdoutWrite_accepted d)).2

theorem forAwait_events (chunks : List Chunk) (acc : Acc) :
    (forAwait stdoutWrite chunks acc).events = (textDeltas chunks).map Event.stdoutWrite := by
  induction chunks generalizing acc with
  | nil => simp [forAwait, textDeltas_nil]
  | cons c cs ih =>
    by_cases h : c.type = "text_delta" <;>
      simp [forAwait, loopBody, h, stdoutWrite, ih, textDeltas_cons]

theorem written_append (l₁ l₂ : List Event) : written (l₁ ++ l₂) = written l₁ ++ written l₂ := by
  induction l₁ with
  | nil => simp [written]
  | cons e es ih => cases e <;> simp [written, ih]

theorem written_map_stdoutWrite (l : List String) : written (l.map Event.stdoutWrite) = l := by
  induction l with
  | nil => simp [written]
  | cons x xs ih => simp [written, ih]

theorem written_map_log (ms : List Model) (f : Model → List Val) :
    written (ms.map (fun m => Event.log (f m))) = [] := by
  induction ms with
  | nil => simp [written]
  | cons m ms ih => simp [written, ih]

/-! ## Lemmas on a whole run -/

theorem sampleEnv_discovers (allModels : List Model) (stream : ChunkStream) :
    (sampleEnv allModels stream).discovers allModels :=
  ⟨⟨_, rfl⟩, rfl, rfl, rfl, rfl, rfl⟩

theorem tryBlock_of_discovers (write : String → Except Thrown (List Event)) (env : Env)
    (allModels : List Model) (hd : env.discovers allModels) :
    tryBlock write env =
      match ollamaModels allModels with
      | [] => (discoveryLog.tail ++ [.log [.str "❌ No Ollama models found"]], .returned)
      | model :: others =>
        (discoveryLog.tail ++ announceModels (model :: others) ++ (request write env model).1,
          (request write env model).2) := by
  obtain ⟨_, h1, h2, h3, h4, h5⟩ := hd
  unfold tryBlock
  simp only [h1, h2, h3, h4, h5]
  cases ollamaModels allModels <;> simp [discoveryLog]

theorem run_noModels (write : String → Except Thrown (List Event)) (env : Env)
    (allModels : List Model) (hd : env.discovers allModels) (hm : ollamaModels allModels = []) :
    testOllamaIntegrationWith write env =
      { events := discoveryLog ++ [.log [.str "❌ No Ollama models found"]],
        finish := .noModels } := by
  have ht := tryBlock_of_discovers write env allModels hd
  obtain ⟨⟨dir, h0⟩, _⟩ := hd
  simp only [hm] at ht
  simp [testOllamaIntegrationWith, h0, ht, discoveryLog]

theorem run_completed (write : String → Except Thrown (List Event)) (env : Env)
    (allModels : List Model) (model : Model) (others : List Model) (chunks : List Chunk)
    (hw : ∀ d ∈ textDeltas chunks, ∃ evs, write d = .ok evs)
    (hd : env.discovers allModels) (hm : ollamaModels allModels = model :: others)
    (hs : env.streamSimple model messages = { chunks := chunks, ending := none }) :
    testOllamaIntegrationWith write env =
      { events := discoveryLog ++ announceModels (model :: others) ++ announceRequest model ++
          (forAwait write chunks initialAcc).events ++
          reportSuccess (forAwait write chunks initialAcc).acc,
        finish := .success (forAwait write chunks initialAcc).acc.responseText
          (forAwait write chunks initialAcc).acc.chunkCount } := by
  have ht := tryBlock_of_discovers write env allModels hd
  have hr := (forAwait_accepted write chunks initialAcc hw).2
  obtain ⟨⟨dir, h0⟩, _⟩ := hd
  simp only [hm] at ht
  simp [testOllamaIntegrationWith, h0, ht, request, hs, hr, discoveryLog]

theorem run_raised (write : String → Except Thrown (List Event)) (env : Env)
    (allModels : List Model) (model : Model) (others : List Model) (chunks : List Chunk)
    (e : Thrown) (hw : ∀ d ∈ textDeltas chunks, ∃ evs, write d = .ok evs)
    (hd : env.discovers allModels) (hm : ollamaModels allModels = model :: others)
    (hs : env.streamSimple model messages = { chunks := chunks, ending := some e }) :
    testOllamaIntegrationWith write env =
      { events := discoveryLog ++ announceModels (model :: others) ++ announceRequest model ++
          (forAwait write chunks initialAcc).events ++ (catchBlock e).1,
        finish := (catchBlock e).2 } := by
  have ht := tryBlock_of_discovers write env allModels hd
  have hr := (forAwait_accepted write chunks initialAcc hw).2
  obtain ⟨⟨dir, h0⟩, _⟩ := hd
  simp only [hm] at ht
  simp [testOllamaIntegrationWith, h0, ht, request, hs, hr, discoveryLog]

theorem dash_line_ne (p i s : String) (h : s.data.head? ≠ some ' ') :
    "   - " ++ p ++ "/" ++ i ≠ s := by
  intro heq
  apply h
  rw [← heq]
  simp [String.data_append]

theorem streamCalls_append (l₁ l₂ : List Event) :
    streamCalls (l₁ ++ l₂) = streamCalls l₁ ++ streamCalls l₂ := by
  induction l₁ with
  | nil => simp [streamCalls]
  | cons e es ih => cases e <;> simp [streamCalls, ih]

theorem streamCalls_map_log (ms : List Model) (f : Model → List Val) :
    streamCalls (ms.map (fun m => Event.log (f m))) = [] := by
  induction ms with
  | nil => simp [streamCalls]
  | cons m ms ih => simp [streamCalls, ih]

theorem streamCalls_map_stdoutWrite (l : List String) :
    streamCalls (l.map Event.stdoutWrite) = [] := by
  induction l with
  | nil => simp [streamCalls]
  | cons x xs ih => simp [streamCalls, ih]

theorem streamCalls_catchBlock (e : Thrown) : streamCalls (catchBlock e).1 = [] := by
  unfold catchBlock
  split
  · simp [streamCalls]
  · split <;> simp [streamCalls]

theorem catchBlock_of_props (e : Thrown) (message stack : Val)
    (he : e.props = some (message, stack)) :
    catchBlock e =
      ([.log [.str "\n❌ FAILED"], .error [.str "Error:", message]] ++
          (if stack.truthy then [.error [.str "\nStack trace:"], .error [stack]] else []),
        .failed e) := by
  unfold catchBlock
  simp only [he]
  by_cases h : stack.truthy = true <;> simp [h]

theorem catchBlock_of_no_props (e : Thrown) (he : e.props = none) :
    catchBlock e = ([.log [.str "\n❌ FAILED"]], .handlerThrew e) := by
  unfold catchBlock
  simp only [he]

/-- With accepted writes, the way control leaves lines 41-71 is given by the
chunk sequence. -/
theorem request_exit (write : String → Except Thrown (List Event)) (env : Env) (model : Model)
    (hw : ∀ d, ∃ evs, write d = .ok evs) :
    (request write env model).2 =
      match (env.streamSimple model messages).ending with
      | some e => .threw e
      | none =>
        .completed (String.join (textDeltas (env.streamSimple model messages).chunks))
          (textDeltas (env.streamSimple model messages).chunks).length := by
  have hacc := forAwait_accepted write (env.streamSimple model messages).chunks initialAcc
    (fun d _ => hw d)
  cases h : (env.streamSimple model messages).ending with
  | none =>
    simp only [request, h, hacc.1, hacc.2]
    simp [initialAcc]
  | some e => simp only [request, h, hacc.2]

theorem tryBlock_exit (write : String → Except Thrown (List Event)) (env : Env)
    (hw : ∀ d, ∃ evs, write d = .ok evs) :
    (tryBlock write env).2 = (tryBlock stdoutWrite env).2 := by
  cases h1 : env.ensureMoltbotModelsJson <;> cases h2 : env.discoverAuthStorage <;>
    cases h3 : env.setRuntimeApiKey <;> cases h4 : env.discoverModels <;>
    try simp [tryBlock, h1, h2, h3, h4]
  cases h5 : env.getAll with
  | error e => simp
  | ok allModels =>
    cases h6 : ollamaModels allModels with
    | nil => simp [h6]
    | cons model others =>
      simp [h6, request_exit write env model hw,
        request_exit stdoutWrite env model stdoutWrite_accepted]

theorem run_of_tryBlock (write : String → Except Thrown (List Event)) (env : Env) (dir : String)
    (h0 : env.mkdtempSync = .ok dir) :
    testOllamaIntegrationWith write env =
      match (tryBlock write env).2 with
      | .returned =>
        { events := [.log [.str "🧪 Testing Ollama integration (with patch)...\n"]] ++
            (tryBlock write env).1,
          finish := .noModels }
      | .completed responseText chunkCount =>
        { events := [.log [.str "🧪 Testing Ollama integration (with patch)...\n"]] ++
            (tryBlock write env).1,
          finish := .success responseText chunkCount }
      | .threw e =>
        { events := [.log [.str "🧪 Testing Ollama integration (with patch)...\n"]] ++
            (tryBlock write env).1 ++ (catchBlock e).1,
          finish := (catchBlock e).2 } := by
  unfold testOllamaIntegrationWith
  simp only [h0]
  rcases tryBlock write env with ⟨evs, x⟩
  cases x <;> rfl

theorem finish_of_accepted (write : String → Except Thrown (List Event)) (env : Env)
    (hw : ∀ d, ∃ evs, write d = .ok evs) :
    (testOllamaIntegrationWith write env).finish =
      (testOllamaIntegrationWith stdoutWrite env).finish := by
  cases h0 : env.mkdtempSync with
  | error e => simp [testOllamaIntegrationWith, h0]
  | ok dir =>
    rw [run_of_tryBlock write env dir h0, run_of_tryBlock stdoutWrite env dir h0,
      tryBlock_exit write env hw]
    cases (tryBlock stdoutWrite env).2 <;> rfl

/-- Each step of the `try` block that raises makes the block raise that value. -/
theorem tryBlock_threw_of_raisesInTry (env : Env) (e : Thrown) (hr : env.raisesInTry e) :
    (tryBlock stdoutWrite env).2 = .threw e := by
  rcases hr with h1 | ⟨h1, h2⟩ | ⟨h1, h2, h3⟩ | ⟨h1, h2, h3, h4⟩ | ⟨h1, h2, h3, h4, h5⟩ |
    ⟨allModels, model, others, h1, h2, h3, h4, h5, h6, h7⟩
  · simp [tryBlock, h1]
  · simp [tryBlock, h1, h2]
  · simp [tryBlock, h1, h2, h3]
  · simp [tryBlock, h1, h2, h3, h4]
  · simp [tryBlock, h1, h2, h3, h4, h5]
  · simp [tryBlock, h1, h2, h3, h4, h5, h6, request, forAwait_raised, h7]

/-- Lines 13-66 print neither the failure banner nor a `console.error` line. -/
theorem tryBlock_prints_no_report (env : Env) :
    Event.log [.str "\n❌ FAILED"] ∉ (tryBlock stdoutWrite env).1 ∧
      ∀ args, Event.error args ∉ (tryBlock stdoutWrite env).1 := by
  have hdash : ∀ p i : String, "   - " ++ p ++ "/" ++ i ≠ "\n❌ FAILED" :=
    fun p i => dash_line_ne p i _ (by decide)
  have hdash2 : ∀ p i : String, "\n❌ FAILED" ≠ "   - " ++ p ++ "/" ++ i :=
    fun p i h => hdash p i h.symm
  cases h1 : env.ensureMoltbotModelsJson <;> cases h2 : env.discoverAuthStorage <;>
    cases h3 : env.setRuntimeApiKey <;> cases h4 : env.discoverModels <;>
    try simp [tryBlock, h1, h2, h3, h4]
  cases h5 : env.getAll with
  | error e => simp
  | ok allModels =>
    cases h6 : ollamaModels allModels with
    | nil => simp [h6]
    | cons model others =>
      cases h7 : (env.streamSimple model messages).ending <;>
        simp [h6, request, h7, forAwait_raised, forAwait_events, announceModels,
          announceRequest, reportSuccess, hdash, hdash2]

/-! ## The claims -/

/-- C1: for every finite chunk sequence the streaming loop, started from lines
57-58, ends with `responseText` equal to the concatenation in arrival order of
the deltas of exactly the `text_delta` chunks and with `chunkCount` equal to the
number of such chunks; when all chunks are `text_delta` chunks this is the
concatenation of all deltas and the number of chunks; and a run whose chunk
sequence terminates normally reaches lines 68-71 with these two values. -/
theorem streaming_loop_accumulates_text_deltas (chunks : List Chunk) :
    (forAwait stdoutWrite chunks initialAcc).1.responseText =
        String.join ((chunks.filter (fun c => c.type = "text_delta")).map (fun c => c.delta)) ∧
    (forAwait stdoutWrite chunks initialAcc).1.chunkCount =
        (chunks.filter (fun c => c.type = "text_delta")).length ∧
    ((∀ c ∈ chunks, c.type = "text_delta") →
      (forAwait stdoutWrite chunks initialAcc).1.responseText =
          String.join (chunks.map (fun c => c.delta)) ∧
      (forAwait stdoutWrite chunks initialAcc).1.chunkCount = chunks.length) ∧
    (∀ (env : Env) (allModels : List Model) (model : Model) (others : List Model),
      env.discovers allModels → ollamaModels allModels = model :: others →
      env.streamSimple model messages = { chunks := chunks, ending := none } →
      (testOllamaIntegration env).finish =
        .success
          (String.join ((chunks.filter (fun c => c.type = "text_delta")).map (fun c => c.delta)))
          (chunks.filter (fun c => c.type = "text_delta")).length) := by
  have hacc := forAwait_acc chunks initialAcc
  have h1 : (forAwait stdoutWrite chunks initialAcc).1.responseText =
      String.join ((chunks.filter (fun c => c.type = "text_delta")).map (fun c => c.delta)) := by
    rw [hacc]; simp [initialAcc, textDeltas]
  have h2 : (forAwait stdoutWrite chunks initialAcc).1.chunkCount =
      (chunks.filter (fun c => c.type = "text_delta")).length := by
    rw [hacc]; simp [initialAcc, textDeltas]
  refine ⟨h1, h2, ?_, ?_⟩
  · intro hall
    have hf : chunks.filter (fun c => c.type = "text_delta") = chunks := by
      apply List.filter_eq_self.mpr
      intro c hc
      simpa using hall c hc
    rw [h1, h2, hf]
    exact ⟨rfl, rfl⟩
  · intro env allModels model others hd hm hs
    unfold testOllamaIntegration
    rw [run_completed stdoutWrite env allModels model others chunks
      (fun d _ => stdoutWrite_accepted d) hd hm hs]
    simp only [h1, h2]

/-- C1, at a concrete run: two `text_delta` chunks around a chunk of another
kind. -/
theorem streaming_loop_accumulates_text_deltas_witness :
    (testOllamaIntegration (sampleEnv sampleModels
      { chunks := [⟨"text_delta", "你"⟩, ⟨"done", ""⟩, ⟨"text_delta", "好"⟩], ending := none })).finish =
      .success
        (String.join (([⟨"text_delta", "你"⟩, ⟨"done", ""⟩, ⟨"text_delta", "好"⟩].filter
          (fun c : Chunk => c.type = "text_delta")).map (fun c => c.delta)))
        ([⟨"text_delta", "你"⟩, ⟨"done", ""⟩, ⟨"text_delta", "好"⟩].filter
          (fun c : Chunk => c.type = "text_delta")).length :=
  (streaming_loop_accumulates_text_deltas
    [⟨"text_delta", "你"⟩, ⟨"done", ""⟩, ⟨"text_delta", "好"⟩]).2.2.2
    (sampleEnv sampleModels
      { chunks := [⟨"text_delta", "你"⟩, ⟨"done", ""⟩, ⟨"text_delta", "好"⟩], ending := none })
    sampleModels
    { provider := "ollama", id := "llama3", baseUrl := "http://127.0.0.1:11434/v1" }
    [{ provider := "ollama", id := "qwen2", baseUrl := "http://127.0.0.1:11434/v1" }]
    (sampleEnv_discovers _ _) (by decide) rfl

/-- C5: the provider filter is order-preserving and exact: `ollamaModels
allModels` is a subsequence of `allModels`, its members are exactly the members
of `allModels` whose provider is "ollama", each with the multiplicity it has in
`allModels`, and every subsequence of `allModels` made of Ollama models only is
a subsequence of it. -/
theorem ollamaModels_order_preserving_filter (allModels : List Model) :
    List.Sublist (ollamaModels allModels) allModels ∧
    (∀ m, m ∈ ollamaModels allModels ↔ m ∈ allModels ∧ m.provider = "ollama") ∧
    (∀ m, m.provider = "ollama" → (ollamaModels allModels).count m = allModels.count m) ∧
    (∀ l, List.Sublist l allModels → (∀ m ∈ l, m.provider = "ollama") →
      List.Sublist l (ollamaModels allModels)) := by
  refine ⟨List.filter_sublist allModels, ?_, ?_, ?_⟩
  · intro m
    simp [ollamaModels, List.mem_filter]
  · intro m hm
    unfold ollamaModels
    rw [List.count_filter]
    simpa using hm
  · intro l hl hall
    have hf : l.filter (fun m => m.provider == "ollama") = l := by
      apply List.filter_eq_self.mpr
      intro m hm
      simpa using hall m hm
    have := hl.filter (fun m => m.provider == "ollama")
    rw [hf] at this
    exact this

/-- C5, at a concrete registry snapshot: the two Ollama models, in their order,
form a subsequence of the filter result. -/
theorem ollamaModels_order_preserving_filter_witness :
    List.Sublist
      [ ({ provider := "ollama", id := "llama3", baseUrl := "http://127.0.0.1:11434/v1" } : Model),
        { provider := "ollama", id := "qwen2", baseUrl := "http://127.0.0.1:11434/v1" } ]
      (ollamaModels sampleModels) :=
  (ollamaModels_order_preserving_filter sampleModels).2.2.2 _
    (by simp [sampleModels]) (by simp)

/-- C7: when the chunk sequence is empty and terminates normally, the run
prints the summary of lines 68-71 with response length 0 and 0 chunks received,
and control leaves through the success path with `responseText = ""` and
`chunkCount = 0`. -/
theorem empty_stream_succeeds (env : Env) (allModels : List Model) (model : Model)
    (others : List Model) (hd : env.discovers allModels)
    (hm : ollamaModels allModels = model :: others)
    (hs : env.streamSimple model messages = { chunks := [], ending := none }) :
    (testOllamaIntegration env).finish = .success "" 0 ∧
    (testOllamaIntegration env).events =
      discoveryLog ++ announceModels (model :: others) ++ announceRequest model ++
        [ .log [.str "\n"],
          .log [.str "✅ SUCCESS: Ollama integration fully working!"],
          .log [.str "   Response length:", .num 0, .str "characters"],
          .log [.str "   Chunks received:", .num 0] ] := by
  unfold testOllamaIntegration
  rw [run_completed stdoutWrite env allModels model others []
      (fun d _ => stdoutWrite_accepted d) hd hm hs]
  simp [forAwait, initialAcc, reportSuccess, jsLength]

/-- C7, at a concrete run. -/
theorem empty_stream_succeeds_witness :
    (testOllamaIntegration (sampleEnv sampleModels { chunks := [], ending := none })).finish =
      .success "" 0 :=
  (empty_stream_succeeds (sampleEnv sampleModels { chunks := [], ending := none }) sampleModels
    { provider := "ollama", id := "llama3", baseUrl := "http://127.0.0.1:11434/v1" }
    [{ provider := "ollama", id := "qwen2", baseUrl := "http://127.0.0.1:11434/v1" }]
    (sampleEnv_discovers _ _) (by decide) rfl).1

/-- C9: one step of the loop either leaves `(responseText, chunkCount)` unchanged
(chunk of another kind) or replaces it by `(responseText + chunk.delta,
chunkCount + 1)` (`text_delta` chunk); hence, for every split of a chunk
sequence into the chunks consumed so far and the rest, the text accumulated so
far is an initial segment of the final text, `chunkCount` does not decrease, and
`chunkCount` is at most the number of chunks consumed so far. -/
theorem accumulator_step_and_monotonicity :
    (∀ (acc : Acc) (chunk : Chunk),
      (chunk.type ≠ "text_delta" ∧ (loopBody stdoutWrite acc chunk).1 = acc) ∨
      (chunk.type = "text_delta" ∧ (loopBody stdoutWrite acc chunk).1 =
        { responseText := acc.responseText ++ chunk.delta, chunkCount := acc.chunkCount + 1 })) ∧
    (∀ (consumed rest : List Chunk),
      (∃ more : String,
        (forAwait stdoutWrite (consumed ++ rest) initialAcc).1.responseText =
          (forAwait stdoutWrite consumed initialAcc).1.responseText ++ more) ∧
      (forAwait stdoutWrite consumed initialAcc).1.chunkCount ≤
        (forAwait stdoutWrite (consumed ++ rest) initialAcc).1.chunkCount ∧
      (forAwait stdoutWrite consumed initialAcc).1.chunkCount ≤ consumed.length) := by
  constructor
  · intro acc chunk
    by_cases h : chunk.type = "text_delta"
    · right; simp [loopBody, stdoutWrite, h]
    · left; simp [loopBody, h]
  · intro consumed rest
    simp only [forAwait_acc, textDeltas_append, join_append, initialAcc, List.length_append]
    refine ⟨⟨String.join (textDeltas rest), ?_⟩, by omega, ?_⟩
    · simp [String.append_assoc]
    · have := textDeltas_length_le consumed
      omega

/-- C10: after any initial part of a chunk sequence has been consumed, the
strings written by line 62, concatenated in write order, equal `responseText`,
and the writes made so far stay at the front of the writes of the whole loop;
on normal termination the strings written after "   Assistant: " concatenate to
the final accumulated text; and when the sequence raises a value, the deltas of
the `text_delta` chunks that arrived have been written, in order, before the
`catch` block prints anything. -/
theorem stdout_writes_track_responseText :
    (∀ (consumed rest : List Chunk),
      String.join (written (forAwait stdoutWrite consumed initialAcc).2) =
        (forAwait stdoutWrite consumed initialAcc).1.responseText ∧
      (∃ later, (forAwait stdoutWrite (consumed ++ rest) initialAcc).2 =
        (forAwait stdoutWrite consumed initialAcc).2 ++ later)) ∧
    (∀ (env : Env) (allModels : List Model) (model : Model) (others : List Model)
      (chunks : List Chunk),
      env.discovers allModels → ollamaModels allModels = model :: others →
      env.streamSimple model messages = { chunks := chunks, ending := none } →
      ∃ ws, written (testOllamaIntegration env).events = "   Assistant: " :: ws ∧
        (testOllamaIntegration env).finish = .success (String.join ws) ws.length) ∧
    (∀ (env : Env) (allModels : List Model) (model : Model) (others : List Model)
      (chunks : List Chunk) (e : Thrown),
      env.discovers allModels → ollamaModels allModels = model :: others →
      env.streamSimple model messages = { chunks := chunks, ending := some e } →
      ∃ before, written before = "   Assistant: " :: textDeltas chunks ∧
        (testOllamaIntegration env).events = before ++ (catchBlock e).1) := by
  refine ⟨?_, ?_, ?_⟩
  · intro consumed rest
    refine ⟨?_, ⟨(textDeltas rest).map Event.stdoutWrite, ?_⟩⟩
    · rw [forAwait_events, forAwait_acc, written_map_stdoutWrite]
      simp [initialAcc]
    · simp [forAwait_events, textDeltas_append]
  · intro env allModels model others chunks hd hm hs
    refine ⟨textDeltas chunks, ?_, ?_⟩
    · unfold testOllamaIntegration
      rw [run_completed stdoutWrite env allModels model others chunks
      (fun d _ => stdoutWrite_accepted d) hd hm hs]
      simp [written_append, forAwait_events, written_map_stdoutWrite, discoveryLog,
        announceModels, written_map_log, announceRequest, reportSuccess, written]
    · unfold testOllamaIntegration
      rw [run_completed stdoutWrite env allModels model others chunks
      (fun d _ => stdoutWrite_accepted d) hd hm hs]
      simp [forAwait_acc, initialAcc]
  · intro env allModels model others chunks e hd hm hs
    refine ⟨discoveryLog ++ announceModels (model :: others) ++ announceRequest model ++
          (forAwait stdoutWrite chunks initialAcc).2, ?_, ?_⟩
    · simp [written_append, forAwait_events, written_map_stdoutWrite, discoveryLog,
        announceModels, written_map_log, announceRequest, written]
    · unfold testOllamaIntegration
      rw [run_raised stdoutWrite env allModels model others chunks e
      (fun d _ => stdoutWrite_accepted d) hd hm hs]

/-- C3: when `getAll()` returns a list in which no model has provider "ollama"
(the empty list included), the run prints "No Ollama models found" and returns:
`streamSimple` is not called, neither the failure banner nor any `console.error`
line nor the success banner is printed. -/
theorem no_ollama_models_halts (env : Env) (allModels : List Model)
    (hd : env.discovers allModels) (hno : ∀ m ∈ allModels, m.provider ≠ "ollama") :
    (testOllamaIntegration env).finish = .noModels ∧
    (testOllamaIntegration env).events =
      discoveryLog ++ [.log [.str "❌ No Ollama models found"]] ∧
    (∀ model msgs, Event.streamSimple model msgs ∉ (testOllamaIntegration env).events) ∧
    Event.log [.str "\n❌ FAILED"] ∉ (testOllamaIntegration env).events ∧
    (∀ args, Event.error args ∉ (testOllamaIntegration env).events) ∧
    Event.log [.str "✅ SUCCESS: Ollama integration fully working!"] ∉
      (testOllamaIntegration env).events := by
  have hm : ollamaModels allModels = [] := by
    unfold ollamaModels
    apply List.filter_eq_nil_iff.mpr
    intro m hmem
    simpa using hno m hmem
  unfold testOllamaIntegration
  rw [run_noModels stdoutWrite env allModels hd hm]
  simp [discoveryLog]

/-- C3, at a concrete run: the registry holds one model of another provider. -/
theorem no_ollama_models_halts_witness :
    (testOllamaIntegration (sampleEnv
      [{ provider := "openai", id := "gpt-4o", baseUrl := "https://api.openai.com/v1" }]
      { chunks := [], ending := none })).finish = .noModels :=
  (no_ollama_models_halts
    (sampleEnv [{ provider := "openai", id := "gpt-4o", baseUrl := "https://api.openai.com/v1" }]
      { chunks := [], ending := none })
    [{ provider := "openai", id := "gpt-4o", baseUrl := "https://api.openai.com/v1" }]
    (sampleEnv_discovers _ _) (by decide)).1

/-- C4: when `getAll()` returns a list that contains a model with provider
"ollama", the list splits as `earlier ++ model :: later` with no Ollama model in
`earlier` and `model` an Ollama model, and in every run in which `getAll()`
returns this list `streamSimple` is called exactly once, with `model` and the
one-message conversation: the selected model depends on the list alone. -/
theorem first_ollama_model_is_selected (allModels : List Model)
    (h : ∃ m ∈ allModels, m.provider = "ollama") :
    ∃ earlier model later, allModels = earlier ++ model :: later ∧
      (∀ m ∈ earlier, m.provider ≠ "ollama") ∧ model.provider = "ollama" ∧
      ∀ env : Env, env.discovers allModels →
        streamCalls (testOllamaIntegration env).events = [model] ∧
        Event.streamSimple model messages ∈ (testOllamaIntegration env).events := by
  cases hm : ollamaModels allModels with
  | nil =>
    obtain ⟨m, hmem, hp⟩ := h
    have : m ∈ ollamaModels allModels := by
      simp [ollamaModels, List.mem_filter, hmem, hp]
    rw [hm] at this
    cases this
  | cons model others =>
    have hm2 := hm
    unfold ollamaModels at hm2
    obtain ⟨earlier, later, hsplit, hnot, hp, _⟩ := List.filter_eq_cons_iff.mp hm2
    refine ⟨earlier, model, later, hsplit, ?_, by simpa using hp, ?_⟩
    · intro m hmem
      simpa using hnot m hmem
    · intro env hd
      unfold testOllamaIntegration
      cases hs : env.streamSimple model messages with
      | mk chunks ending =>
        cases ending with
        | none =>
          rw [run_completed stdoutWrite env allModels model others chunks
      (fun d _ => stdoutWrite_accepted d) hd hm hs]
          simp [streamCalls_append, forAwait_events, streamCalls_map_stdoutWrite, discoveryLog,
            announceModels, streamCalls_map_log, announceRequest, reportSuccess, streamCalls]
        | some e =>
          rw [run_raised stdoutWrite env allModels model others chunks e
      (fun d _ => stdoutWrite_accepted d) hd hm hs]
          simp [streamCalls_append, forAwait_events, streamCalls_map_stdoutWrite, discoveryLog,
            announceModels, streamCalls_map_log, announceRequest, streamCalls_catchBlock,
            streamCalls]

/-- C4, at a concrete registry snapshot with two Ollama models after a model of
another provider. -/
theorem first_ollama_model_is_selected_witness :
    ∃ earlier model later, sampleModels = earlier ++ model :: later ∧
      (∀ m ∈ earlier, m.provider ≠ "ollama") ∧ model.provider = "ollama" ∧
      ∀ env : Env, env.discovers sampleModels →
        streamCalls (testOllamaIntegration env).events = [model] ∧
        Event.streamSimple model messages ∈ (testOllamaIntegration env).events :=
  first_ollama_model_is_selected sampleModels
    ⟨{ provider := "ollama", id := "qwen2", baseUrl := "http://127.0.0.1:11434/v1" },
      by simp [sampleModels], rfl⟩

/-- C6 as stated fails: when `mkdtempSync` raises (line 9, before the `try`),
the raised value leaves the function and nothing is printed; and when the stream
raises `null`, the banner is the last thing printed: control leaves the handler
through the `TypeError` of `error.message`, before any `console.error` line. -/
theorem failure_report_counterexample :
    testOllamaIntegration
        { mkdtempSync := .error (.obj (.str "EACCES: permission denied, mkdtemp") (.str "Error: EACCES"))
          ensureMoltbotModelsJson := .ok ()
          discoverAuthStorage := .ok ()
          setRuntimeApiKey := .ok ()
          discoverModels := .ok ()
          getAll := .ok sampleModels
          streamSimple := fun _ _ => { chunks := [], ending := none } } =
      { events := [],
        finish := .escaped (.obj (.str "EACCES: permission denied, mkdtemp") (.str "Error: EACCES")) } ∧
    (testOllamaIntegration
        (sampleEnv sampleModels { chunks := [], ending := some (.prim .null) })).finish =
      .handlerThrew (.prim .null) ∧
    (testOllamaIntegration
        (sampleEnv sampleModels { chunks := [], ending := some (.prim .null) })).events.getLast? =
      some (.log [.str "\n❌ FAILED"]) := by
  refine ⟨rfl, by decide, by decide⟩

/-- C10, at a concrete run: the stream raises after two `text_delta` chunks. -/
theorem stdout_writes_track_responseText_witness :
    ∃ before, written before =
        "   Assistant: " :: textDeltas [⟨"text_delta", "你"⟩, ⟨"text_delta", "好"⟩] ∧
      (testOllamaIntegration (sampleEnv sampleModels
        { chunks := [⟨"text_delta", "你"⟩, ⟨"text_delta", "好"⟩],
          ending := some (.obj (.str "socket hang up") .undefined) })).events =
        before ++ (catchBlock (.obj (.str "socket hang up") .undefined)).1 :=
  stdout_writes_track_responseText.2.2
    (sampleEnv sampleModels
      { chunks := [⟨"text_delta", "你"⟩, ⟨"text_delta", "好"⟩],
        ending := some (.obj (.str "socket hang up") .undefined) })
    sampleModels
    { provider := "ollama", id := "llama3", baseUrl := "http://127.0.0.1:11434/v1" }
    [{ provider := "ollama", id := "qwen2", baseUrl := "http://127.0.0.1:11434/v1" }]
    [⟨"text_delta", "你"⟩, ⟨"text_delta", "好"⟩] (.obj (.str "socket hang up") .undefined)
    (sampleEnv_discovers _ _) (by decide) rfl

/-- C2 as stated fails for a raised `undefined`: after one `text_delta` chunk
the sequence raises `undefined`; the banner is the last thing printed and
control leaves the handler through the `TypeError` of `error.message`, so no
message is reported and the run does not end in the Failure outcome. -/
theorem stream_error_counterexample :
    (testOllamaIntegration (sampleEnv sampleModels
      { chunks := [⟨"text_delta", "你"⟩], ending := some (.prim .undefined) })).finish =
      .handlerThrew (.prim .undefined) ∧
    (testOllamaIntegration (sampleEnv sampleModels
      { chunks := [⟨"text_delta", "你"⟩], ending := some (.prim .undefined) })).events.getLast? =
      some (.log [.str "\n❌ FAILED"]) := by
  refine ⟨by decide, by decide⟩

/-- C2 (amended): when the chunk sequence raises `e` after any number of chunks,
the success banner is not printed and control does not leave through the
success path, whatever `e` is; and when the properties of `e` can be read (`e`
is neither `null` nor `undefined`), the run leaves through the `catch` block:
after the deltas written so far it prints the failure banner and `e.message`,
then the stack trace exactly when `e.stack` is truthy. -/
theorem stream_error_reports_failure (env : Env) (allModels : List Model) (model : Model)
    (others : List Model) (chunks : List Chunk) (e : Thrown)
    (hd : env.discovers allModels) (hm : ollamaModels allModels = model :: others)
    (hs : env.streamSimple model messages = { chunks := chunks, ending := some e }) :
    Event.log [.str "✅ SUCCESS: Ollama integration fully working!"] ∉
      (testOllamaIntegration env).events ∧
    (∀ text n, (testOllamaIntegration env).finish ≠ .success text n) ∧
    (∀ message stack, e.props = some (message, stack) →
      (testOllamaIntegration env).finish = .failed e ∧
      (testOllamaIntegration env).events =
        discoveryLog ++ announceModels (model :: others) ++ announceRequest model ++
          (textDeltas chunks).map Event.stdoutWrite ++
          [.log [.str "\n❌ FAILED"], .error [.str "Error:", message]] ++
          (if stack.truthy then [.error [.str "\nStack trace:"], .error [stack]] else [])) := by
  have hrun : testOllamaIntegration env =
      { events := discoveryLog ++ announceModels (model :: others) ++ announceRequest model ++
          (textDeltas chunks).map Event.stdoutWrite ++ (catchBlock e).1,
        finish := (catchBlock e).2 } := by
    unfold testOllamaIntegration
    rw [run_raised stdoutWrite env allModels model others chunks e
      (fun d _ => stdoutWrite_accepted d) hd hm hs, forAwait_events]
  have hdash : ∀ p i : String,
      "   - " ++ p ++ "/" ++ i ≠ "✅ SUCCESS: Ollama integration fully working!" :=
    fun p i => dash_line_ne p i _ (by decide)
  have hdash2 : ∀ p i : String,
      "✅ SUCCESS: Ollama integration fully working!" ≠ "   - " ++ p ++ "/" ++ i :=
    fun p i h => hdash p i h.symm
  rw [hrun]
  refine ⟨?_, ?_, ?_⟩
  · cases hp : e.props with
    | none =>
      rw [catchBlock_of_no_props e hp]
      simp [discoveryLog, announceModels, announceRequest, hdash, hdash2]
    | some ms =>
      rw [catchBlock_of_props e ms.1 ms.2 hp]
      by_cases h : ms.2.truthy = true <;>
        simp [discoveryLog, announceModels, announceRequest, h, hdash, hdash2]
  · intro text n
    cases hp : e.props with
    | none =>
      rw [catchBlock_of_no_props e hp]
      intro h
      cases h
    | some ms =>
      rw [catchBlock_of_props e ms.1 ms.2 hp]
      intro h
      cases h
  · intro message stack he
    rw [catchBlock_of_props e message stack he]
    simp [List.append_assoc]

/-- C2 (amended), at a concrete run: the stream raises an `Error` after one
`text_delta` chunk. -/
theorem stream_error_reports_failure_witness :
    (testOllamaIntegration (sampleEnv sampleModels
      { chunks := [⟨"text_delta", "你"⟩],
        ending := some (.obj (.str "fetch failed") (.str "TypeError: fetch failed")) })).finish =
      .failed (.obj (.str "fetch failed") (.str "TypeError: fetch failed")) :=
  ((stream_error_reports_failure
    (sampleEnv sampleModels
      { chunks := [⟨"text_delta", "你"⟩],
        ending := some (.obj (.str "fetch failed") (.str "TypeError: fetch failed")) })
    sampleModels
    { provider := "ollama", id := "llama3", baseUrl := "http://127.0.0.1:11434/v1" }
    [{ provider := "ollama", id := "qwen2", baseUrl := "http://127.0.0.1:11434/v1" }]
    [⟨"text_delta", "你"⟩] (.obj (.str "fetch failed") (.str "TypeError: fetch failed"))
    (sampleEnv_discovers _ _) (by decide) rfl).2.2
    (.str "fetch failed") (.str "TypeError: fetch failed") rfl).1

/-- C6 (amended): when a step inside the `try` block (bootstrapping the
configuration, setting up credentials, discovering models, getting the model
list, streaming) raises a value `e` whose properties can be read (anything but
`null` and `undefined`), the run completes through the `catch` block and prints
exactly one failure report after what was printed before: the banner,
`e.message` and, when `e.stack` is truthy, the stack trace; nothing printed
before it is the banner or a `console.error` line. -/
theorem failure_in_try_block_is_reported_once (env : Env) (dir : String) (e : Thrown)
    (message stack : Val) (h0 : env.mkdtempSync = .ok dir)
    (hr : env.raisesInTry e) (he : e.props = some (message, stack)) :
    (testOllamaIntegration env).finish = .failed e ∧
    ∃ before, (testOllamaIntegration env).events =
        before ++ [.log [.str "\n❌ FAILED"], .error [.str "Error:", message]] ++
          (if stack.truthy then [.error [.str "\nStack trace:"], .error [stack]] else []) ∧
      Event.log [.str "\n❌ FAILED"] ∉ before ∧ ∀ args, Event.error args ∉ before := by
  have hrun := run_of_tryBlock stdoutWrite env dir h0
  simp only [tryBlock_threw_of_raisesInTry env e hr] at hrun
  have hq := tryBlock_prints_no_report env
  unfold testOllamaIntegration
  rw [hrun, catchBlock_of_props e message stack he]
  refine ⟨rfl, [.log [.str "🧪 Testing Ollama integration (with patch)...\n"]] ++
    (tryBlock stdoutWrite env).1, ?_, ?_, ?_⟩
  · simp [List.append_assoc]
  · simpa using hq.1
  · intro args
    simpa using hq.2 args

/-- C6 (amended), at a concrete run: `discoverModels` raises an `Error` without
a stack. -/
theorem failure_in_try_block_is_reported_once_witness :
    (testOllamaIntegration
      { mkdtempSync := .ok "/tmp/koltbot-test-Ab12Cd"
        ensureMoltbotModelsJson := .ok ()
        discoverAuthStorage := .ok ()
        setRuntimeApiKey := .ok ()
        discoverModels := .error (.obj (.str "ENOENT: no such file, open models.json") .undefined)
        getAll := .ok sampleModels
        streamSimple := fun _ _ => { chunks := [], ending := none } }).finish =
      .failed (.obj (.str "ENOENT: no such file, open models.json") .undefined) :=
  (failure_in_try_block_is_reported_once
    { mkdtempSync := .ok "/tmp/koltbot-test-Ab12Cd"
      ensureMoltbotModelsJson := .ok ()
      discoverAuthStorage := .ok ()
      setRuntimeApiKey := .ok ()
      discoverModels := .error (.obj (.str "ENOENT: no such file, open models.json") .undefined)
      getAll := .ok sampleModels
      streamSimple := fun _ _ => { chunks := [], ending := none } }
    "/tmp/koltbot-test-Ab12Cd" (.obj (.str "ENOENT: no such file, open models.json") .undefined)
    (.str "ENOENT: no such file, open models.json") .undefined rfl
    (Or.inr (Or.inr (Or.inr (Or.inl ⟨rfl, rfl, rfl, rfl⟩)))) rfl).1

/-- C8 as stated fails: on the same chunk sequence (one `text_delta` chunk, then
a normal end) the run succeeds when the write of line 62 is accepted and ends
in the `catch` block when that write raises, since line 62 is inside the `try`
and before lines 63-64. -/
theorem progress_output_counterexample :
    (testOllamaIntegrationWith stdoutWrite (sampleEnv sampleModels
      { chunks := [⟨"text_delta", "你"⟩], ending := none })).finish = .success "你" 1 ∧
    (testOllamaIntegrationWith (fun _ => .error (.obj (.str "write EPIPE") .undefined))
      (sampleEnv sampleModels
        { chunks := [⟨"text_delta", "你"⟩], ending := none })).finish =
      .failed (.obj (.str "write EPIPE") .undefined) := by
  refine ⟨by decide, by decide⟩

/-- C8 (amended): for progress outputs that do not raise, the way control
leaves a run is the same for any two of them put in place of line 62 (one that
writes nothing included); and when no write of a delta of the sequence raises,
the outcome is given by the chunk sequence: after a normal end the run prints
the success summary with the UTF-16 length of the concatenation of the
`text_delta` deltas and their number and leaves through the success path with
that text and number, and after a raised value whose properties can be read it
prints the failure report for that value and leaves through the `catch`
block. -/
theorem outcome_independent_of_progress_output :
    (∀ (write₁ write₂ : String → Except Thrown (List Event)) (env : Env),
      (∀ d, ∃ evs, write₁ d = .ok evs) → (∀ d, ∃ evs, write₂ d = .ok evs) →
      (testOllamaIntegrationWith write₁ env).finish =
        (testOllamaIntegrationWith write₂ env).finish) ∧
    (∀ (write : String → Except Thrown (List Event)) (env : Env) (allModels : List Model)
      (model : Model) (others : List Model) (chunks : List Chunk),
      (∀ d ∈ textDeltas chunks, ∃ evs, write d = .ok evs) →
      env.discovers allModels → ollamaModels allModels = model :: others →
      env.streamSimple model messages = { chunks := chunks, ending := none } →
      (testOllamaIntegrationWith write env).finish =
          .success (String.join (textDeltas chunks)) (textDeltas chunks).length ∧
        (testOllamaIntegrationWith write env).events =
          discoveryLog ++ announceModels (model :: others) ++ announceRequest model ++
            (forAwait write chunks initialAcc).events ++
            [ .log [.str "\n"],
              .log [.str "✅ SUCCESS: Ollama integration fully working!"],
              .log [.str "   Response length:", .num (jsLength (String.join (textDeltas chunks))),
                .str "characters"],
              .log [.str "   Chunks received:", .num (textDeltas chunks).length] ]) ∧
    (∀ (write : String → Except Thrown (List Event)) (env : Env) (allModels : List Model)
      (model : Model) (others : List Model) (chunks : List Chunk) (e : Thrown)
      (message stack : Val),
      (∀ d ∈ textDeltas chunks, ∃ evs, write d = .ok evs) →
      env.discovers allModels → ollamaModels allModels = model :: others →
      env.streamSimple model messages = { chunks := chunks, ending := some e } →
      e.props = some (message, stack) →
      (testOllamaIntegrationWith write env).finish = .failed e ∧
        (testOllamaIntegrationWith write env).events =
          discoveryLog ++ announceModels (model :: others) ++ announceRequest model ++
            (forAwait write chunks initialAcc).events ++
            [.log [.str "\n❌ FAILED"], .error [.str "Error:", message]] ++
            (if stack.truthy then [.error [.str "\nStack trace:"], .error [stack]] else [])) := by
  refine ⟨?_, ?_, ?_⟩
  · intro write₁ write₂ env hw₁ hw₂
    rw [finish_of_accepted write₁ env hw₁, finish_of_accepted write₂ env hw₂]
  · intro write env allModels model others chunks hw hd hm hs
    rw [run_completed write env allModels model others chunks hw hd hm hs,
      (forAwait_accepted write chunks initialAcc hw).1]
    simp [initialAcc, reportSuccess]
  · intro write env allModels model others chunks e message stack hw hd hm hs he
    rw [run_raised write env allModels model others chunks e hw hd hm hs,
      catchBlock_of_props e message stack he]
    simp [List.append_assoc]

/-- C8 (amended), at a concrete run in which nothing is written as the deltas
arrive. -/
theorem outcome_independent_of_progress_output_witness :
    (testOllamaIntegrationWith (fun _ => .ok []) (sampleEnv sampleModels
      { chunks := [⟨"text_delta", "你"⟩, ⟨"text_delta", "好"⟩], ending := none })).finish =
      .success (String.join (textDeltas [⟨"text_delta", "你"⟩, ⟨"text_delta", "好"⟩]))
        (textDeltas [⟨"text_delta", "你"⟩, ⟨"text_delta", "好"⟩]).length :=
  (outcome_independent_of_progress_output.2.1 (fun _ => .ok [])
    (sampleEnv sampleModels
      { chunks := [⟨"text_delta", "你"⟩, ⟨"text_delta", "好"⟩], ending := none })
    sampleModels
    { provider := "ollama", id := "llama3", baseUrl := "http://127.0.0.1:11434/v1" }
    [{ provider := "ollama", id := "qwen2", baseUrl := "http://127.0.0.1:11434/v1" }]
    [⟨"text_delta", "你"⟩, ⟨"text_delta", "好"⟩]
    (fun _ _ => ⟨[], rfl⟩) (sampleEnv_discovers _ _) (by decide) rfl).1

end Koltbot
